import Mathlib

/-!
# Verification of `export_castle_anim_frames.py`

A shallow embedding, in Lean 4, of the frame-sampling and container-assembly
core of the Castle Animation Frames Blender exporter
(`src/export_castle_anim_frames.py`), together with theorems settling the
specification claims about it.

Conventions of the embedding:
* Python floats are modelled as rationals (`ℚ`): every operation the claims
  touch (min, max, `+`, `-`, `/ 2.0`, `/ 25.0`) is exact arithmetic.
* Blender frame numbers are `Int` (Python ints).
* Host-provided data (the scene object list, world matrices, the axis
  conversion matrix returned by `bpy_extras`' `axis_conversion`, the payload
  produced by the external X3D/glTF exporters, the `user_of_id` usage test)
  enter as explicit parameters.
* Writes to the output file are modelled as lists of written items; a raised
  Python exception is an `Except.error` / an error flag, carrying what was
  written up to that point.
-/

namespace CastleAnimFrames

/-! ## FrameSampler: the frame loop of `output_one_animation` (lines 434-440)

```python
frame = frame_start
while frame < frame_end:
    self.output_frame(context, output_file, frame, frame_start)
    frame += 1 + self.frame_skip
# the last frame should be always output, regardless if we would "hit"
# it with given frame_skip.
self.output_frame(context, output_file, frame_end, frame_start)
```
`sampleLoop` is the `while` loop (the list of frames passed to `output_frame`
inside the loop); `sample` appends the unconditional final emission. -/

def sampleLoop (frame_end : Int) (frame_skip : Nat) (frame : Int) : List Int :=
  if frame < frame_end then
    frame :: sampleLoop frame_end frame_skip (frame + 1 + (frame_skip : Int))
  else
    []
termination_by (frame_end - frame).toNat
decreasing_by
  simp_wf
  omega

def sample (frame_start frame_end : Int) (frame_skip : Nat) : List Int :=
  sampleLoop frame_end frame_skip frame_start ++ [frame_end]

theorem sampleLoop_pos {frame_end frame : Int} (frame_skip : Nat)
    (h : frame < frame_end) :
    sampleLoop frame_end frame_skip frame =
      frame :: sampleLoop frame_end frame_skip (frame + 1 + (frame_skip : Int)) := by
  rw [sampleLoop]
  simp [h]

theorem sampleLoop_neg {frame_end frame : Int} (frame_skip : Nat)
    (h : ¬ frame < frame_end) :
    sampleLoop frame_end frame_skip frame = [] := by
  rw [sampleLoop]
  simp [h]

/-! ## BoundingBoxCalculator: `get_current_bounding_box` (lines 189-270) -/

/-- Python's two-argument `min` on numbers. -/
def pymin (a b : ℚ) : ℚ :=
  if a ≤ b then a else b

/-- Python's two-argument `max` on numbers. -/
def pymax (a b : ℚ) : ℚ :=
  if a ≥ b then a else b

theorem pymin_eq_min (a b : ℚ) : pymin a b = min a b := by
  rw [pymin, min_def]

theorem pymax_eq_max (a b : ℚ) : pymax a b = max a b := by
  rw [pymax, max_def]
  rcases le_or_lt a b with h | h
  · rcases eq_or_lt_of_le h with rfl | h'
    · simp
    · simp [ge_iff_le, not_le.mpr h', h]
  · simp [ge_iff_le, h.le, not_le.mpr h]

/-- A 3D point/vector with exact (rational) coordinates, standing for a
`mathutils.Vector` of floats. -/
@[ext]
structure Vec3 where
  x : ℚ
  y : ℚ
  z : ℚ
deriving DecidableEq

/-- A 4x4 matrix (`mathutils.Matrix`), row major: `mIJ` is row `I`, column `J`. -/
structure Mat4 where
  m00 : ℚ
  m01 : ℚ
  m02 : ℚ
  m03 : ℚ
  m10 : ℚ
  m11 : ℚ
  m12 : ℚ
  m13 : ℚ
  m20 : ℚ
  m21 : ℚ
  m22 : ℚ
  m23 : ℚ
  m30 : ℚ
  m31 : ℚ
  m32 : ℚ
  m33 : ℚ
deriving DecidableEq

/-- Python `a @ b` on two 4x4 `mathutils` matrices. -/
def matMul (a b : Mat4) : Mat4 where
  m00 := a.m00 * b.m00 + a.m01 * b.m10 + a.m02 * b.m20 + a.m03 * b.m30
  m01 := a.m00 * b.m01 + a.m01 * b.m11 + a.m02 * b.m21 + a.m03 * b.m31
  m02 := a.m00 * b.m02 + a.m01 * b.m12 + a.m02 * b.m22 + a.m03 * b.m32
  m03 := a.m00 * b.m03 + a.m01 * b.m13 + a.m02 * b.m23 + a.m03 * b.m33
  m10 := a.m10 * b.m00 + a.m11 * b.m10 + a.m12 * b.m20 + a.m13 * b.m30
  m11 := a.m10 * b.m01 + a.m11 * b.m11 + a.m12 * b.m21 + a.m13 * b.m31
  m12 := a.m10 * b.m02 + a.m11 * b.m12 + a.m12 * b.m22 + a.m13 * b.m32
  m13 := a.m10 * b.m03 + a.m11 * b.m13 + a.m12 * b.m23 + a.m13 * b.m33
  m20 := a.m20 * b.m00 + a.m21 * b.m10 + a.m22 * b.m20 + a.m23 * b.m30
  m21 := a.m20 * b.m01 + a.m21 * b.m11 + a.m22 * b.m21 + a.m23 * b.m31
  m22 := a.m20 * b.m02 + a.m21 * b.m12 + a.m22 * b.m22 + a.m23 * b.m32
  m23 := a.m20 * b.m03 + a.m21 * b.m13 + a.m22 * b.m23 + a.m23 * b.m33
  m30 := a.m30 * b.m00 + a.m31 * b.m10 + a.m32 * b.m20 + a.m33 * b.m30
  m31 := a.m30 * b.m01 + a.m31 * b.m11 + a.m32 * b.m21 + a.m33 * b.m31
  m32 := a.m30 * b.m02 + a.m31 * b.m12 + a.m32 * b.m22 + a.m33 * b.m32
  m33 := a.m30 * b.m03 + a.m31 * b.m13 + a.m32 * b.m23 + a.m33 * b.m33

/-- Python `m @ Vector(corner)`: `mathutils` extends the 3D vector with
`w = 1`, multiplies, and drops the `w` component of the result. -/
def mulPoint (m : Mat4) (v : Vec3) : Vec3 :=
  ⟨m.m00 * v.x + m.m01 * v.y + m.m02 * v.z + m.m03,
   m.m10 * v.x + m.m11 * v.y + m.m12 * v.z + m.m13,
   m.m20 * v.x + m.m21 * v.y + m.m22 * v.z + m.m23⟩

/-- The identity matrix (used by concrete witnesses in place of the external
`axis_conversion` result). -/
def idMat : Mat4 :=
  ⟨1, 0, 0, 0, 0, 1, 0, 0, 0, 0, 1, 0, 0, 0, 0, 1⟩

/-- Blender's `Object.bound_box`: 8 corners of 3 floats each (24 floats).
Blender always provides exactly 8 corners, so we model the field with a fixed
8-corner structure. -/
structure BoundBox where
  c0 : Vec3
  c1 : Vec3
  c2 : Vec3
  c3 : Vec3
  c4 : Vec3
  c5 : Vec3
  c6 : Vec3
  c7 : Vec3
deriving DecidableEq

/-- Iterating `for corner in ob.bound_box`. -/
def BoundBox.corners (bb : BoundBox) : List Vec3 :=
  [bb.c0, bb.c1, bb.c2, bb.c3, bb.c4, bb.c5, bb.c6, bb.c7]

/-- One entry of `context.scene.objects`, restricted to the attributes the
exporter reads. `visible`/`selected` stand for `visible_get(...)` /
`select_get(...)` on the current view layer; `type` is Blender's object type
string. -/
structure SceneObject where
  visible : Bool
  selected : Bool
  type : String
  matrix_world : Mat4
  bound_box : BoundBox
deriving DecidableEq

/-- `is_bound_box_empty` (lines 189-200): all 24 floats equal to -1. -/
def is_bound_box_empty (bound_box : BoundBox) : Bool :=
  bound_box.corners.all fun c => c.x == -1 && c.y == -1 && c.z == -1

/-- The type tuple of line 227:
`('ARMATURE', 'LATTICE', 'EMPTY', 'CAMERA', 'LAMP', 'SPEAKER')`. -/
def excludedTypes : List String :=
  ["ARMATURE", "LATTICE", "EMPTY", "CAMERA", "LAMP", "SPEAKER"]

/-- The guard of lines 227-228: the object passes when its type is not in the
excluded tuple and its bound box is not the all-(-1) sentinel. -/
def stepActive (ob : SceneObject) : Bool :=
  !excludedTypes.contains ob.type && !is_bound_box_empty ob.bound_box

/-- Lines 232-243: transform the 8 corners by
`global_matrix @ ob.matrix_world` and take the per-axis min/max, starting from
`object_box_points[0]`. -/
def objectBoxMinMax (global_matrix : Mat4) (ob : SceneObject) : Vec3 × Vec3 :=
  let object_box_points :=
    ob.bound_box.corners.map fun corner =>
      mulPoint (matMul global_matrix ob.matrix_world) corner
  let p0 := mulPoint (matMul global_matrix ob.matrix_world) ob.bound_box.c0
  (object_box_points.foldl
      (fun acc v => ⟨pymin v.x acc.x, pymin v.y acc.y, pymin v.z acc.z⟩) p0,
   object_box_points.foldl
      (fun acc v => ⟨pymax v.x acc.x, pymax v.y acc.y, pymax v.z acc.z⟩) p0)

/-- The body of the `for ob in objects` loop (lines 225-256), acting on the
running state. The state `none` is `scene_box_empty = True`;
`some (mn, mx)` is `scene_box_empty = False` with `scene_box_min = mn`,
`scene_box_max = mx`. -/
def bboxStep (global_matrix : Mat4) (st : Option (Vec3 × Vec3))
    (ob : SceneObject) : Option (Vec3 × Vec3) :=
  if stepActive ob then
    let omm := objectBoxMinMax global_matrix ob
    match st with
    | none => some omm
    | some (smin, smax) =>
        some (⟨pymin smin.x omm.1.x, pymin smin.y omm.1.y, pymin smin.z omm.1.z⟩,
              ⟨pymax smax.x omm.2.x, pymax smax.y omm.2.y, pymax smax.z omm.2.z⟩)
  else
    st

/-- The `objects` list comprehensions of lines 218-221: visible objects,
additionally restricted to the selected ones when `use_selection`. -/
def visibleObjects (use_selection : Bool) (scene : List SceneObject) :
    List SceneObject :=
  if use_selection then
    scene.filter fun obj => obj.visible && obj.selected
  else
    scene.filter fun obj => obj.visible

/-- `get_current_bounding_box` (lines 202-270). `global_matrix` is the result
of the external `axis_conversion(...).to_4x4()` call, passed in explicitly.
Returns `(scene_box_center, scene_box_size)`. -/
def get_current_bounding_box (use_selection : Bool) (global_matrix : Mat4)
    (scene : List SceneObject) : Vec3 × Vec3 :=
  match (visibleObjects use_selection scene).foldl (bboxStep global_matrix) none with
  | none => (⟨0, 0, 0⟩, ⟨-1, -1, -1⟩)
  | some (mn, mx) =>
      (⟨(mn.x + mx.x) / 2, (mn.y + mx.y) / 2, (mn.z + mx.z) / 2⟩,
       ⟨mx.x - mn.x, mx.y - mn.y, mx.z - mn.z⟩)

/-- An object contributes corners to the scene box exactly when it passes the
visibility/selection filter (lines 218-221) and the type/uninitialized-box
guard (lines 227-228). -/
def contributes (use_selection : Bool) (ob : SceneObject) : Bool :=
  (if use_selection then ob.visible && ob.selected else ob.visible) &&
    stepActive ob

/-! ## StaticFrameExporter / AnimationBlockWriter:
`output_frame` (lines 378-420) and `output_one_animation` (lines 428-442) -/

/-- The operator properties the embedded code reads (a slice of the
`ExportCastleAnimFrames` property set, lines 64-153). -/
structure ExportOptions where
  frame_skip : Nat
  actions_object : String
  make_duplicates_real : Bool
  frame_format : String
  use_selection : Bool
deriving DecidableEq

/-- The default property values (`frame_skip=4`, `actions_object=''`,
`make_duplicates_real=False`, `frame_format='GLTF'`, `use_selection=False`). -/
def optsDefault : ExportOptions :=
  ⟨4, "", false, "GLTF", false⟩

/-- The `<frame ...>` element written by `output_frame`, structured: the
attribute values of the opening tag plus the embedded document payload. -/
structure FrameElem where
  time : ℚ
  mime_type : String
  bb_center : Vec3
  bb_size : Vec3
  payload : String
deriving DecidableEq

/-- `output_frame` (lines 378-420). `sceneAt f` is the scene object list after
`context.scene.frame_set(f)` (the host evaluates the animation); `payload f`
is the document text produced by the external X3D/glTF exporter at frame `f`;
`global_matrix` is the external `axis_conversion` result used by the bounding
box computation. The written `time` attribute is
`(frame - frame_start) / 25.0` (line 407), with no dependence on the host
scene's frame rate. -/
def output_frame (opts : ExportOptions) (sceneAt : Int → List SceneObject)
    (payload : Int → String) (global_matrix : Mat4)
    (frame frame_start : Int) : FrameElem :=
  let bb := get_current_bounding_box opts.use_selection global_matrix (sceneAt frame)
  { time := ((frame : ℚ) - (frame_start : ℚ)) / 25
    mime_type :=
      if opts.frame_format == "GLTF" then "model/gltf+json" else "model/x3d+vrml"
    bb_center := bb.1
    bb_size := bb.2
    payload := payload frame }

/-- One `<animation>` element as written by `output_one_animation`
(lines 428-442): the opening tag text, the frame elements (one per entry of
`sample`, in order), and the closing tag text. -/
structure AnimBlock where
  openTag : String
  frames : List FrameElem
  closeTag : String
deriving DecidableEq

/-- `output_one_animation` (lines 428-442). The opening tag is built by plain
string concatenation (line 430), with no XML escaping of `animation_name`. -/
def output_one_animation (opts : ExportOptions)
    (sceneAt : Int → List SceneObject) (payload : Int → String)
    (global_matrix : Mat4) (animation_name : String)
    (frame_start frame_end : Int) : AnimBlock :=
  { openTag :=
      if animation_name ≠ "" then
        "\t<animation name=\"" ++ animation_name ++ "\">\n"
      else
        "\t<animation>\n"
    frames :=
      (sample frame_start frame_end opts.frame_skip).map fun frame =>
        output_frame opts sceneAt payload global_matrix frame frame_start
    closeTag := "\t</animation>\n" }

/-! ## ContainerExporter: `execute` (lines 445-491) -/

/-- A `bpy.data.actions` entry, restricted to the attributes `execute` reads.
`frame_range` is a pair of floats. -/
structure ExpAction where
  name : String
  use_fake_user : Bool
  frame_range_start : ℚ
  frame_range_end : ℚ
deriving DecidableEq

/-- Python `int(...)` on a float: truncation toward zero. -/
def truncInt (q : ℚ) : Int :=
  if 0 ≤ q then ⌊q⌋ else ⌈q⌉

/-- One item written to the output file: literal text, or a whole
`<animation>` block (kept structured). -/
inductive OutItem where
  | text (s : String)
  | block (b : AnimBlock)
deriving DecidableEq

/-- Lines 456-465: the list of actions to export. `used a` stands for the
host primitive `actions_object_o.user_of_id(action)`; the source notes it is
unreliable, hence the `or action.use_fake_user` part. -/
def actionsToExport (used : ExpAction → Bool) (actions : List ExpAction) :
    List ExpAction :=
  actions.filter fun action => used action || action.use_fake_user

/-- `execute` (lines 445-491), as the sequence of items written to the output
file plus an optional raised exception message. `scene_frame_start` /
`scene_frame_end` are `context.scene.frame_start` / `frame_end`; `actions` is
`bpy.data.actions`. On the no-action exception (line 482) the prologue already
written stays in the file and neither any `<animation>` block nor the closing
`</animations>` tag is written. (The temporary action rebinding performed in
the loop is host state, modelled separately by `actionBindRun`.) -/
def execute (opts : ExportOptions) (sceneAt : Int → List SceneObject)
    (payload : Int → String) (global_matrix : Mat4)
    (scene_frame_start scene_frame_end : Int) (actions : List ExpAction)
    (used : ExpAction → Bool) : List OutItem × Option String :=
  let header := [OutItem.text "<?xml version=\"1.0\"?>\n",
                 OutItem.text "<animations>\n"]
  if opts.actions_object ≠ "" then
    let actions_to_export := actionsToExport used actions
    if actions_to_export.length > 0 then
      (header ++
        actions_to_export.map (fun action =>
          OutItem.block (output_one_animation opts sceneAt payload global_matrix
            action.name (truncInt action.frame_range_start)
            (truncInt action.frame_range_end))) ++
        [OutItem.text "</animations>\n"], none)
    else
      (header,
       some ("No action found on object \"" ++ opts.actions_object ++ "\""))
  else
    (header ++
      [OutItem.block (output_one_animation opts sceneAt payload global_matrix
        "animation" scene_frame_start scene_frame_end)] ++
      [OutItem.text "</animations>\n"], none)

/-- The per-action loop of lines 470-476, viewed as the sequence of
assignments to `actions_object_o.animation_data.action`: each action is bound
before its export pass runs; `fails a = true` means the export pass for `a`
raises (the external exporter failed), which aborts the loop. Returns the
assignment trace and whether an exception is propagating. -/
def actionBindLoop (fails : ExpAction → Bool) :
    List ExpAction → List ExpAction × Bool
  | [] => ([], false)
  | action :: rest =>
      if fails action then
        ([action], true)
      else
        let (trace, raised) := actionBindLoop fails rest
        (action :: trace, raised)

/-- Lines 468-480: `original_action = ...; try: <loop> finally:
animation_data.action = original_action`. Python's `try/finally` runs the
`finally` block exactly once on every exit path, normal or exceptional, so the
restoring assignment is appended to the trace unconditionally while the
exception flag of the loop is preserved. -/
def actionBindRun (original_action : ExpAction) (actions : List ExpAction)
    (fails : ExpAction → Bool) : List ExpAction × Bool :=
  let (trace, raised) := actionBindLoop fails actions
  (trace ++ [original_action], raised)

/-! ## Make-duplicates-real hooks (lines 533-595) -/

/-- The slice of the Blender state the duplicate-realization hooks touch:
`objects` is `context.scene.objects` (objects stand for their identities, as
Python `in` on Blender objects is identity comparison); `selected` is the set
of currently selected objects. -/
structure BlenderState where
  objects : List Nat
  selected : List Nat
deriving DecidableEq

/-- `make_duplicates_real_before` (lines 533-546): record
`self.old_objects` / `self.old_objects_len`, then
`bpy.ops.object.select_all(action='SELECT')`. The subsequent external
`bpy.ops.object.duplicates_make_real()` call mutates the scene arbitrarily;
its result is whatever state `make_duplicates_real_after` later observes. -/
def make_duplicates_real_before (s : BlenderState) :
    (List Nat × Nat) × BlenderState :=
  ((s.objects, s.objects.length), ⟨s.objects, s.objects⟩)

/-- `make_duplicates_real_after` (lines 561-595), with `old_objects` the list
saved by the pre-hook and `s` the currently observed state. Deletion
(`bpy.ops.object.delete()`) removes the selected objects and leaves nothing
selected. The final length check of lines 591-593 sits after the
`if len(duplicated_objects) != 0` block in the source; it is duplicated into
both branches here. -/
def make_duplicates_real_after (old_objects : List Nat) (s : BlenderState) :
    Except String BlenderState :=
  let new_objects := s.objects
  if new_objects.length < old_objects.length then
    .error "Error: we have less objecs after running duplicates_make_real, submit a bug"
  else
    let duplicated_objects := new_objects.filter fun item => !old_objects.contains item
    if duplicated_objects.length ≠ 0 then
      let sel := s.objects.filter fun ob =>
        new_objects.contains ob && !old_objects.contains ob
      if sel.length ≠ duplicated_objects.length then
        .error "Error: we did not select as many as expected, submit a bug"
      else
        let remaining := s.objects.filter fun ob =>
          !(new_objects.contains ob && !old_objects.contains ob)
        if remaining.length ≠ old_objects.length then
          .error "At the end, we do not have as many objects as at the beginning"
        else
          .ok ⟨remaining, []⟩
    else
      if s.objects.length ≠ old_objects.length then
        .error "At the end, we do not have as many objects as at the beginning"
      else
        .ok s

/-! ## Sampler lemmas -/

theorem sampleLoop_mem_lt (frame_end : Int) (frame_skip : Nat) (frame : Int) :
    ∀ x ∈ sampleLoop frame_end frame_skip frame, x < frame_end := by
  induction frame using sampleLoop.induct frame_end frame_skip with
  | case1 f h ih =>
      rw [sampleLoop_pos frame_skip h]
      intro x hx
      rcases List.mem_cons.mp hx with rfl | hx
      · exact h
      · exact ih x hx
  | case2 f h =>
      rw [sampleLoop_neg frame_skip h]
      intro x hx
      simp at hx

theorem sampleLoop_head_pos {frame_end frame : Int} (frame_skip : Nat)
    (h : frame < frame_end) :
    (sampleLoop frame_end frame_skip frame).head? = some frame := by
  rw [sampleLoop_pos frame_skip h]
  rfl

theorem sampleLoop_chain (frame_end : Int) (frame_skip : Nat) (frame : Int) :
    List.Chain' (· < ·) (sampleLoop frame_end frame_skip frame) := by
  induction frame using sampleLoop.induct frame_end frame_skip with
  | case1 f h ih =>
      rw [sampleLoop_pos frame_skip h, List.chain'_cons']
      refine ⟨?_, ih⟩
      intro y hy
      by_cases h2 : f + 1 + (frame_skip : Int) < frame_end
      · rw [sampleLoop_head_pos frame_skip h2] at hy
        simp at hy
        omega
      · rw [sampleLoop_neg frame_skip h2] at hy
        simp at hy
  | case2 f h =>
      rw [sampleLoop_neg frame_skip h]
      exact List.chain'_nil

/-- C1, counterexample. The claim asserts `Sample(0, 10, 4) = [0, 5, 10, 10]`
(a duplicated final element whenever `(range_end - range_start)` is divisible
by `1 + skip`). The loop of lines 434-437 only emits frames strictly below
`frame_end`, so the unconditional final emission of line 440 is the only
emission of `frame_end`: the actual sequence is `[0, 5, 10]`, with no
duplicate. -/
theorem claim1_counterexample :
    sample 0 10 4 = [0, 5, 10] ∧ sample 0 10 4 ≠ [0, 5, 10, 10] := by
  have h : sample 0 10 4 = [0, 5, 10] := by
    rw [sample, sampleLoop_pos 4 (by norm_num)]
    norm_num
    rw [sampleLoop_pos 4 (by norm_num)]
    norm_num
    rw [sampleLoop_neg 4 (by norm_num)]
  refine ⟨h, ?_⟩
  rw [h]
  decide

/-- C1, amended: `sample` emits `range_end` exactly once, for every input —
the loop emits only frames strictly below `range_end` and the final
unconditional emission is therefore never a duplicate, regardless of whether
`(range_end - range_start)` is divisible by `(1 + skip)`; in particular
`Sample(0, 10, 4) = [0, 5, 10]`. -/
theorem claim1_amended (frame_start frame_end : Int) (frame_skip : Nat) :
    (sample frame_start frame_end frame_skip).count frame_end = 1 := by
  rw [sample, List.count_append]
  have h0 : (sampleLoop frame_end frame_skip frame_start).count frame_end = 0 :=
    List.count_eq_zero.mpr fun hmem =>
      absurd (sampleLoop_mem_lt _ _ _ _ hmem) (lt_irrefl _)
  rw [h0]
  simp

/-- C2: for every `range_start ≤ range_end` and `skip ∈ [0, 50]`, the frame
sequence emitted by the loop plus the unconditional final emission
(lines 434-440) starts at `range_start`, ends at `range_end`, and is strictly
increasing (hence in particular "strictly increasing except possibly for a
duplicated final element" — the duplicate in fact never occurs). -/
theorem claim2_sample_monotone (frame_start frame_end : Int) (frame_skip : Nat)
    (h : frame_start ≤ frame_end) (hskip : frame_skip ≤ 50) :
    (sample frame_start frame_end frame_skip).head? = some frame_start ∧
    (sample frame_start frame_end frame_skip).getLast? = some frame_end ∧
    List.Chain' (· < ·) (sample frame_start frame_end frame_skip) := by
  refine ⟨?_, ?_, ?_⟩
  · rcases lt_or_eq_of_le h with h1 | h1
    · rw [sample, sampleLoop_pos frame_skip h1]
      rfl
    · subst h1
      rw [sample, sampleLoop_neg frame_skip (lt_irrefl frame_start)]
      rfl
  · rw [sample]
    exact List.getLast?_concat _
  · rw [sample, List.chain'_append]
    refine ⟨sampleLoop_chain _ _ _, List.chain'_singleton _, ?_⟩
    intro x hx y hy
    simp at hy
    subst hy
    exact sampleLoop_mem_lt frame_end frame_skip frame_start x
      (List.mem_of_mem_getLast? hx)

/-- C2, witness: the theorem applied at `range_start = 0`, `range_end = 10`,
`skip = 4`. -/
theorem claim2_witness :
    (sample 0 10 4).head? = some 0 ∧
    (sample 0 10 4).getLast? = some 10 ∧
    List.Chain' (· < ·) (sample 0 10 4) :=
  claim2_sample_monotone 0 10 4 (by decide) (by decide)


/-! ## BoundingBoxCalculator lemmas and claims C3, C4, C9 -/

/-- Per-axis comparison of two points. -/
def vecLE (a b : Vec3) : Prop :=
  a.x ≤ b.x ∧ a.y ≤ b.y ∧ a.z ≤ b.z

/-- Invariant of the scene fold state: when non-empty, min ≤ max per axis. -/
def stOK : Option (Vec3 × Vec3) → Prop
  | none => True
  | some (mn, mx) => vecLE mn mx

theorem foldl_pymin_le (pts : List Vec3) (a : Vec3) :
    vecLE (pts.foldl (fun acc v => ⟨pymin v.x acc.x, pymin v.y acc.y, pymin v.z acc.z⟩) a) a := by
  induction pts generalizing a with
  | nil => exact ⟨le_refl _, le_refl _, le_refl _⟩
  | cons p rest ih =>
      simp only [List.foldl_cons]
      obtain ⟨h1, h2, h3⟩ := ih ⟨pymin p.x a.x, pymin p.y a.y, pymin p.z a.z⟩
      refine ⟨le_trans h1 ?_, le_trans h2 ?_, le_trans h3 ?_⟩ <;>
        simp [pymin_eq_min]

theorem foldl_pymax_ge (pts : List Vec3) (a : Vec3) :
    vecLE a (pts.foldl (fun acc v => ⟨pymax v.x acc.x, pymax v.y acc.y, pymax v.z acc.z⟩) a) := by
  induction pts generalizing a with
  | nil => exact ⟨le_refl _, le_refl _, le_refl _⟩
  | cons p rest ih =>
      simp only [List.foldl_cons]
      obtain ⟨h1, h2, h3⟩ := ih ⟨pymax p.x a.x, pymax p.y a.y, pymax p.z a.z⟩
      refine ⟨le_trans ?_ h1, le_trans ?_ h2, le_trans ?_ h3⟩ <;>
        simp [pymax_eq_max]

theorem objectBoxMinMax_le (g : Mat4) (ob : SceneObject) :
    vecLE (objectBoxMinMax g ob).1 (objectBoxMinMax g ob).2 := by
  unfold objectBoxMinMax
  simp only
  obtain ⟨h1, h2, h3⟩ := foldl_pymin_le
    (ob.bound_box.corners.map fun corner => mulPoint (matMul g ob.matrix_world) corner)
    (mulPoint (matMul g ob.matrix_world) ob.bound_box.c0)
  obtain ⟨g1, g2, g3⟩ := foldl_pymax_ge
    (ob.bound_box.corners.map fun corner => mulPoint (matMul g ob.matrix_world) corner)
    (mulPoint (matMul g ob.matrix_world) ob.bound_box.c0)
  exact ⟨le_trans h1 g1, le_trans h2 g2, le_trans h3 g3⟩

theorem bboxStep_stOK (g : Mat4) (st : Option (Vec3 × Vec3)) (ob : SceneObject)
    (h : stOK st) : stOK (bboxStep g st ob) := by
  by_cases ha : stepActive ob
  · cases st with
    | none => simpa [bboxStep, ha] using objectBoxMinMax_le g ob
    | some p =>
        obtain ⟨mn, mx⟩ := p
        obtain ⟨h1, h2, h3⟩ := h
        obtain ⟨g1, g2, g3⟩ := objectBoxMinMax_le g ob
        simp only [bboxStep, ha, if_true, stOK, vecLE]
        refine ⟨?_, ?_, ?_⟩ <;> simp [pymin_eq_min, pymax_eq_max] <;> tauto
  · simpa [bboxStep, ha] using h

theorem foldl_bboxStep_stOK (g : Mat4) (l : List SceneObject)
    (st : Option (Vec3 × Vec3)) (h : stOK st) :
    stOK (l.foldl (bboxStep g) st) := by
  induction l generalizing st with
  | nil => exact h
  | cons ob rest ih => exact ih _ (bboxStep_stOK g st ob h)

theorem bboxStep_inactive (g : Mat4) (ob : SceneObject)
    (h : stepActive ob = false) (st : Option (Vec3 × Vec3)) :
    bboxStep g st ob = st := by
  simp [bboxStep, h]

theorem foldl_bboxStep_inactive (g : Mat4) (l : List SceneObject)
    (st : Option (Vec3 × Vec3)) (h : ∀ ob ∈ l, stepActive ob = false) :
    l.foldl (bboxStep g) st = st := by
  induction l generalizing st with
  | nil => rfl
  | cons ob rest ih =>
      rw [List.foldl_cons, bboxStep_inactive g ob (h ob (List.mem_cons_self _ _)) st]
      exact ih st fun o ho => h o (List.mem_cons_of_mem _ ho)

theorem bboxStep_some_isSome (g : Mat4) (p : Vec3 × Vec3) (ob : SceneObject) :
    (bboxStep g (some p) ob).isSome := by
  obtain ⟨mn, mx⟩ := p
  by_cases ha : stepActive ob <;> simp [bboxStep, ha]

theorem foldl_bboxStep_some (g : Mat4) (l : List SceneObject) (p : Vec3 × Vec3) :
    (l.foldl (bboxStep g) (some p)).isSome := by
  induction l generalizing p with
  | nil => rfl
  | cons ob rest ih =>
      rw [List.foldl_cons]
      rcases Option.isSome_iff_exists.mp (bboxStep_some_isSome g p ob) with ⟨q, hq⟩
      rw [hq]
      exact ih q

theorem bboxStep_active_isSome (g : Mat4) (st : Option (Vec3 × Vec3))
    (ob : SceneObject) (h : stepActive ob = true) : (bboxStep g st ob).isSome := by
  cases st with
  | none => simp [bboxStep, h]
  | some p => exact bboxStep_some_isSome g p ob

theorem foldl_bboxStep_isSome_of_mem (g : Mat4) (l : List SceneObject)
    (st : Option (Vec3 × Vec3)) (ob : SceneObject) (hmem : ob ∈ l)
    (hact : stepActive ob = true) : (l.foldl (bboxStep g) st).isSome := by
  induction l generalizing st with
  | nil => simp at hmem
  | cons o rest ih =>
      rw [List.foldl_cons]
      rcases List.mem_cons.mp hmem with rfl | hmem'
      · rcases Option.isSome_iff_exists.mp (bboxStep_active_isSome g st ob hact) with ⟨q, hq⟩
        rw [hq]
        exact foldl_bboxStep_some g rest q
      · exact ih _ hmem'

theorem mem_visibleObjects {use_selection : Bool} {scene : List SceneObject}
    {ob : SceneObject} :
    ob ∈ visibleObjects use_selection scene ↔
      ob ∈ scene ∧
        (if use_selection then ob.visible && ob.selected else ob.visible) = true := by
  cases use_selection <;> simp [visibleObjects, List.mem_filter]

theorem contributes_eq (use_selection : Bool) (ob : SceneObject) :
    contributes use_selection ob =
      ((if use_selection then ob.visible && ob.selected else ob.visible) &&
        stepActive ob) := rfl

/-- C3: for every scene in which no object survives the
visibility/selection/type/uninitialized-box filtering,
`get_current_bounding_box` returns the sentinel `center=(0,0,0)`,
`size=(-1,-1,-1)` (lines 259-261); and whenever at least one object
contributes, every component of the returned size is nonnegative (size is
`max - min` per axis with `min ≤ max` by construction, lines 263-268). -/
theorem claim3_bbox_sentinel_and_nonneg (use_selection : Bool)
    (global_matrix : Mat4) (scene : List SceneObject) :
    ((∀ ob ∈ scene, contributes use_selection ob = false) →
      get_current_bounding_box use_selection global_matrix scene =
        (⟨0, 0, 0⟩, ⟨-1, -1, -1⟩)) ∧
    ((∃ ob ∈ scene, contributes use_selection ob = true) →
      0 ≤ (get_current_bounding_box use_selection global_matrix scene).2.x ∧
      0 ≤ (get_current_bounding_box use_selection global_matrix scene).2.y ∧
      0 ≤ (get_current_bounding_box use_selection global_matrix scene).2.z) := by
  constructor
  · intro h
    have hall : ∀ ob ∈ visibleObjects use_selection scene, stepActive ob = false := by
      intro ob hob
      obtain ⟨hmem, hvis⟩ := mem_visibleObjects.mp hob
      have := h ob hmem
      rw [contributes_eq, hvis, Bool.true_and] at this
      exact this
    rw [get_current_bounding_box,
      foldl_bboxStep_inactive global_matrix _ none hall]
  · intro ⟨ob, hmem, hc⟩
    rw [contributes_eq, Bool.and_eq_true] at hc
    obtain ⟨hvis, hact⟩ := hc
    have hmem' : ob ∈ visibleObjects use_selection scene :=
      mem_visibleObjects.mpr ⟨hmem, hvis⟩
    have hsome := foldl_bboxStep_isSome_of_mem global_matrix
      (visibleObjects use_selection scene) none ob hmem' hact
    have hok := foldl_bboxStep_stOK global_matrix
      (visibleObjects use_selection scene) none trivial
    rw [get_current_bounding_box]
    rcases hfold : (visibleObjects use_selection scene).foldl
        (bboxStep global_matrix) none with _ | ⟨mn, mx⟩
    · rw [hfold] at hsome
      simp at hsome
    · rw [hfold] at hok
      obtain ⟨h1, h2, h3⟩ := hok
      simp only
      exact ⟨sub_nonneg.mpr h1, sub_nonneg.mpr h2, sub_nonneg.mpr h3⟩

/-- C3, witness: the sentinel part applied to the empty scene, and the
nonnegative-size part applied to a one-cube scene. -/
theorem claim3_witness :
    get_current_bounding_box false idMat [] = (⟨0, 0, 0⟩, ⟨-1, -1, -1⟩) ∧
    (0 ≤ (get_current_bounding_box false idMat
        [⟨true, false, "MESH", idMat,
          ⟨⟨0,0,0⟩,⟨0,0,2⟩,⟨0,2,2⟩,⟨0,2,0⟩,⟨2,0,0⟩,⟨2,0,2⟩,⟨2,2,2⟩,⟨2,2,0⟩⟩⟩]).2.x) :=
  ⟨(claim3_bbox_sentinel_and_nonneg false idMat []).1 (by simp),
   ((claim3_bbox_sentinel_and_nonneg false idMat
      [⟨true, false, "MESH", idMat,
        ⟨⟨0,0,0⟩,⟨0,0,2⟩,⟨0,2,2⟩,⟨0,2,0⟩,⟨2,0,0⟩,⟨2,0,2⟩,⟨2,2,2⟩,⟨2,2,0⟩⟩⟩]).2
      ⟨_, List.mem_cons_self _ _, by decide⟩).1⟩

theorem filter_foldl_skip (g : Mat4) (p : SceneObject → Bool)
    (l1 l2 : List SceneObject) (ob : SceneObject)
    (hact : stepActive ob = false) :
    ((l1 ++ ob :: l2).filter p).foldl (bboxStep g) none =
      ((l1 ++ l2).filter p).foldl (bboxStep g) none := by
  rw [List.filter_append, List.filter_append, List.filter_cons]
  by_cases hp : p ob
  · simp only [hp, if_true]
    rw [List.foldl_append, List.foldl_append, List.foldl_cons,
      bboxStep_inactive _ _ hact]
  · simp only [hp, Bool.false_eq_true, if_false]

/-- C4: an object whose type is in the excluded tuple of line 227 (armature,
lattice, empty, camera, lamp/light, speaker) never contributes any corner to
the bounding box: `get_current_bounding_box` on a scene containing it equals
the result on the same scene with that object removed. -/
theorem claim4_excluded_no_contribution (use_selection : Bool)
    (global_matrix : Mat4) (l1 l2 : List SceneObject) (ob : SceneObject)
    (h : ob.type ∈ excludedTypes) :
    get_current_bounding_box use_selection global_matrix (l1 ++ ob :: l2) =
      get_current_bounding_box use_selection global_matrix (l1 ++ l2) := by
  have hact : stepActive ob = false := by
    simp [stepActive]
    intro hc
    exact absurd h (by simpa using hc)
  have hfold : (visibleObjects use_selection (l1 ++ ob :: l2)).foldl
      (bboxStep global_matrix) none =
      (visibleObjects use_selection (l1 ++ l2)).foldl
        (bboxStep global_matrix) none := by
    cases use_selection <;>
      exact filter_foldl_skip global_matrix _ l1 l2 ob hact
  rw [get_current_bounding_box, get_current_bounding_box, hfold]

/-- C4, witness: removing a camera object from a one-object scene leaves the
bounding box unchanged. -/
theorem claim4_witness :
    get_current_bounding_box false idMat
        ([] ++ ⟨true, true, "CAMERA", idMat,
          ⟨⟨0,0,0⟩,⟨0,0,2⟩,⟨0,2,2⟩,⟨0,2,0⟩,⟨2,0,0⟩,⟨2,0,2⟩,⟨2,2,2⟩,⟨2,2,0⟩⟩⟩ :: []) =
      get_current_bounding_box false idMat ([] ++ []) :=
  claim4_excluded_no_contribution false idMat [] []
    ⟨true, true, "CAMERA", idMat,
      ⟨⟨0,0,0⟩,⟨0,0,2⟩,⟨0,2,2⟩,⟨0,2,0⟩,⟨2,0,0⟩,⟨2,0,2⟩,⟨2,2,2⟩,⟨2,2,0⟩⟩⟩
    (by decide)

theorem bboxStep_rightComm (g : Mat4) (st : Option (Vec3 × Vec3))
    (a b : SceneObject) :
    bboxStep g (bboxStep g st a) b = bboxStep g (bboxStep g st b) a := by
  cases ha : stepActive a <;> cases hb : stepActive b
  case true.true =>
    cases st with
    | none =>
        simp only [bboxStep, ha, hb, if_true]
        simp [pymin_eq_min, pymax_eq_max, min_comm, max_comm]
    | some p =>
        obtain ⟨mn, mx⟩ := p
        simp only [bboxStep, ha, hb, if_true]
        simp [pymin_eq_min, pymax_eq_max, Vec3.ext_iff]
        refine ⟨⟨?_, ?_, ?_⟩, ?_, ?_, ?_⟩ <;>
          first
            | exact min_right_comm _ _ _
            | exact Max.right_comm _ _ _
  all_goals simp [bboxStep_inactive g a, bboxStep_inactive g b, ha, hb]

/-- C9: `get_current_bounding_box` is invariant to the order in which the
scene lists its objects — permuting the object list yields the same
`(center, size)` result, because the per-object min/max accumulation step is
right-commutative. -/
theorem claim9_perm_invariant (use_selection : Bool) (global_matrix : Mat4)
    (scene1 scene2 : List SceneObject) (h : scene1.Perm scene2) :
    get_current_bounding_box use_selection global_matrix scene1 =
      get_current_bounding_box use_selection global_matrix scene2 := by
  have hperm : (visibleObjects use_selection scene1).Perm
      (visibleObjects use_selection scene2) := by
    cases use_selection <;> exact h.filter _
  have hfold := hperm.foldl_eq'
    (fun x _ y _ z => bboxStep_rightComm global_matrix z x y) none
  rw [get_current_bounding_box, get_current_bounding_box, hfold]

/-- C9, witness: the theorem applied to a concrete two-object scene and its
swap. -/
theorem claim9_witness :
    get_current_bounding_box false idMat
        [⟨true, false, "MESH", idMat,
          ⟨⟨0,0,0⟩,⟨0,0,2⟩,⟨0,2,2⟩,⟨0,2,0⟩,⟨2,0,0⟩,⟨2,0,2⟩,⟨2,2,2⟩,⟨2,2,0⟩⟩⟩,
         ⟨true, true, "CAMERA", idMat,
          ⟨⟨0,0,0⟩,⟨0,0,2⟩,⟨0,2,2⟩,⟨0,2,0⟩,⟨2,0,0⟩,⟨2,0,2⟩,⟨2,2,2⟩,⟨2,2,0⟩⟩⟩] =
      get_current_bounding_box false idMat
        [⟨true, true, "CAMERA", idMat,
          ⟨⟨0,0,0⟩,⟨0,0,2⟩,⟨0,2,2⟩,⟨0,2,0⟩,⟨2,0,0⟩,⟨2,0,2⟩,⟨2,2,2⟩,⟨2,2,0⟩⟩⟩,
         ⟨true, false, "MESH", idMat,
          ⟨⟨0,0,0⟩,⟨0,0,2⟩,⟨0,2,2⟩,⟨0,2,0⟩,⟨2,0,0⟩,⟨2,0,2⟩,⟨2,2,2⟩,⟨2,2,0⟩⟩⟩] :=
  claim9_perm_invariant false idMat _ _ (List.Perm.swap _ _ _)


theorem sample_head (frame_start frame_end : Int) (frame_skip : Nat)
    (h : frame_start ≤ frame_end) :
    (sample frame_start frame_end frame_skip).head? = some frame_start := by
  rcases lt_or_eq_of_le h with h1 | h1
  · rw [sample, sampleLoop_pos frame_skip h1]
    rfl
  · subst h1
    rw [sample, sampleLoop_neg frame_skip (lt_irrefl frame_start)]
    rfl

theorem filter_and_contains (l old : List Nat) :
    l.filter (fun ob => l.contains ob && !old.contains ob) =
      l.filter (fun ob => !old.contains ob) :=
  List.filter_congr fun ob hob => by
    simp [List.contains, List.elem_eq_true_of_mem hob, hob]

theorem filter_not_and_contains (l old : List Nat) :
    l.filter (fun ob => !(l.contains ob && !old.contains ob)) =
      l.filter (fun ob => old.contains ob) :=
  List.filter_congr fun ob hob => by
    simp [List.contains, List.elem_eq_true_of_mem hob, hob]

/-- Normal form of `make_duplicates_real_after`. -/
theorem make_duplicates_real_after_eq (old_objects : List Nat) (s : BlenderState) :
    make_duplicates_real_after old_objects s =
      if s.objects.length < old_objects.length then
        .error "Error: we have less objecs after running duplicates_make_real, submit a bug"
      else if (s.objects.filter (fun ob => !old_objects.contains ob)).length ≠ 0 then
        (if (s.objects.filter (fun ob => old_objects.contains ob)).length ≠
            old_objects.length then
          .error "At the end, we do not have as many objects as at the beginning"
        else
          .ok ⟨s.objects.filter (fun ob => old_objects.contains ob), []⟩)
      else
        (if s.objects.length ≠ old_objects.length then
          .error "At the end, we do not have as many objects as at the beginning"
        else
          .ok s) := by
  rw [make_duplicates_real_after]
  by_cases h1 : s.objects.length < old_objects.length
  · simp only [h1, if_true]
  · simp only [h1, if_false]
    rw [filter_and_contains, filter_not_and_contains]
    simp only [ne_eq, eq_self_iff_true, not_true, if_false]

/-- C5, counterexample. The claim says the post-hook restores the selection
exactly to the pre-hook state. In a run starting from one selected object
(state `⟨[1], [1]⟩`), where the external `duplicates_make_real` call adds
object 2 (observed state `⟨[1, 2], [1, 2]⟩`), the post-hook succeeds and
correctly restores the object list to `[1]`, but the final selection is `[]`,
not the pre-hook selection `[1]`: the hooks never save or restore selection
(the pre-hook runs `select_all(action='SELECT')` and the deletion loop leaves
every surviving object deselected). -/
theorem claim5_counterexample :
    make_duplicates_real_before ⟨[1], [1]⟩ = (([1], 1), ⟨[1], [1]⟩) ∧
    make_duplicates_real_after [1] ⟨[1, 2], [1, 2]⟩ = .ok ⟨[1], []⟩ ∧
    (BlenderState.mk [1] []).selected ≠ (BlenderState.mk [1] [1]).selected :=
  ⟨rfl, rfl, by decide⟩

/-- C5, amended: when `make_duplicates_real` is enabled, the post-hook
restores the object count exactly and deletes exactly the objects newly
created since the pre-hook (the surviving list is the observed list filtered
to the pre-hook's objects), and raises an error if the post-state object
count is below the pre-state count, or if the final object count differs from
the pre-hook's object count; the count of objects selected for deletion
always equals the count of newly created objects, so that integrity check
cannot fire in a faithful sequential run. The selection, however, is not
restored to the pre-hook state. -/
theorem claim5_amended (old_objects : List Nat) (s : BlenderState) :
    (s.objects.length < old_objects.length →
      ∃ msg, make_duplicates_real_after old_objects s = .error msg) ∧
    (¬ s.objects.length < old_objects.length →
      (s.objects.filter (fun ob => old_objects.contains ob)).length ≠
        old_objects.length →
      ∃ msg, make_duplicates_real_after old_objects s = .error msg) ∧
    (∀ s', make_duplicates_real_after old_objects s = .ok s' →
      s'.objects.length = old_objects.length ∧
      s'.objects = s.objects.filter (fun ob => old_objects.contains ob)) := by
  refine ⟨?_, ?_, ?_⟩
  · intro h1
    rw [make_duplicates_real_after_eq, if_pos h1]
    exact ⟨_, rfl⟩
  · intro h1 h3
    rw [make_duplicates_real_after_eq, if_neg h1]
    by_cases h2 : (s.objects.filter (fun ob => !old_objects.contains ob)).length ≠ 0
    · rw [if_pos h2, if_pos h3]
      exact ⟨_, rfl⟩
    · have hall : ∀ ob ∈ s.objects, old_objects.contains ob = true := by
        intro ob hob
        by_contra hc
        have hm : ob ∈ s.objects.filter (fun ob => !old_objects.contains ob) :=
          List.mem_filter.mpr ⟨hob, by simpa using hc⟩
        rw [List.length_eq_zero.mp (not_not.mp h2)] at hm
        simp at hm
      rw [List.filter_eq_self.mpr hall] at h3
      rw [if_neg h2, if_pos h3]
      exact ⟨_, rfl⟩
  · intro s' hok
    rw [make_duplicates_real_after_eq] at hok
    by_cases h1 : s.objects.length < old_objects.length
    · rw [if_pos h1] at hok
      simp at hok
    · rw [if_neg h1] at hok
      by_cases h2 : (s.objects.filter (fun ob => !old_objects.contains ob)).length ≠ 0
      · rw [if_pos h2] at hok
        by_cases h3 : (s.objects.filter (fun ob => old_objects.contains ob)).length ≠
            old_objects.length
        · rw [if_pos h3] at hok
          simp at hok
        · rw [if_neg h3] at hok
          simp only [Except.ok.injEq] at hok
          subst hok
          exact ⟨not_not.mp h3, rfl⟩
      · have hall : ∀ ob ∈ s.objects, old_objects.contains ob = true := by
          intro ob hob
          by_contra hc
          have hm : ob ∈ s.objects.filter (fun ob => !old_objects.contains ob) :=
            List.mem_filter.mpr ⟨hob, by simpa using hc⟩
          rw [List.length_eq_zero.mp (not_not.mp h2)] at hm
          simp at hm
        rw [if_neg h2] at hok
        by_cases h3 : s.objects.length ≠ old_objects.length
        · rw [if_pos h3] at hok
          simp at hok
        · rw [if_neg h3] at hok
          simp only [Except.ok.injEq] at hok
          subst hok
          exact ⟨not_not.mp h3, (List.filter_eq_self.mpr hall).symm⟩

/-- C5, witness for the amended theorem: with one pre-hook object and an
observed post-state with zero objects, the first integrity check raises. -/
theorem claim5_witness :
    ∃ msg, make_duplicates_real_after [1] ⟨[], []⟩ = .error msg :=
  (claim5_amended [1] ⟨[], []⟩).1 (by decide)

/-- C6: in actions mode, across the per-action loop of lines 470-476 wrapped
in `try/finally` (lines 469-480), the trace of assignments to
`animation_data.action` always ends with the originally-bound action, and the
restoring assignment occurs exactly once beyond whatever the loop itself
assigned — for every failure pattern of the per-action export passes,
including a pass that raises mid-loop. -/
theorem claim6_original_action_restored (original_action : ExpAction)
    (actions : List ExpAction) (fails : ExpAction → Bool) :
    (actionBindRun original_action actions fails).1.getLast? =
      some original_action ∧
    (actionBindRun original_action actions fails).1.count original_action =
      (actionBindLoop fails actions).1.count original_action + 1 := by
  constructor
  · rw [actionBindRun]
    exact List.getLast?_concat _
  · rw [actionBindRun, List.count_append]
    simp

/-- C7: when `actions_object` is set and the computed list of actions to
export is empty, `execute` raises the exception of line 482 whose message
names the designated object, and the output contains exactly the XML
declaration and the `<animations>` root opener: no `<animation>` block and no
closing `</animations>` tag is written. -/
theorem claim7_no_action_error (opts : ExportOptions)
    (sceneAt : Int → List SceneObject) (payload : Int → String)
    (global_matrix : Mat4) (scene_frame_start scene_frame_end : Int)
    (actions : List ExpAction) (used : ExpAction → Bool)
    (hobj : opts.actions_object ≠ "")
    (hempty : actionsToExport used actions = []) :
    execute opts sceneAt payload global_matrix scene_frame_start scene_frame_end
        actions used =
      ([OutItem.text "<?xml version=\"1.0\"?>\n", OutItem.text "<animations>\n"],
       some ("No action found on object \"" ++ opts.actions_object ++ "\"")) ∧
    (∃ p q, "No action found on object \"" ++ opts.actions_object ++ "\"" =
      p ++ opts.actions_object ++ q) ∧
    (∀ b, OutItem.block b ∉
      (execute opts sceneAt payload global_matrix scene_frame_start
        scene_frame_end actions used).1) ∧
    OutItem.text "</animations>\n" ∉
      (execute opts sceneAt payload global_matrix scene_frame_start
        scene_frame_end actions used).1 := by
  have hmain : execute opts sceneAt payload global_matrix scene_frame_start
      scene_frame_end actions used =
      ([OutItem.text "<?xml version=\"1.0\"?>\n", OutItem.text "<animations>\n"],
       some ("No action found on object \"" ++ opts.actions_object ++ "\"")) := by
    rw [execute]
    simp [hobj, hempty]
  refine ⟨hmain, ⟨"No action found on object \"", "\"", rfl⟩, ?_, ?_⟩
  · intro b
    rw [hmain]
    simp
  · rw [hmain]
    simp

/-- C7, witness: a run with a designated object name and an empty action
list. -/
theorem claim7_witness :
    execute ⟨4, "Armature", false, "GLTF", false⟩ (fun _ => []) (fun _ => "")
        idMat 0 0 [] (fun _ => false) =
      ([OutItem.text "<?xml version=\"1.0\"?>\n", OutItem.text "<animations>\n"],
       some ("No action found on object \"" ++ "Armature" ++ "\"")) :=
  (claim7_no_action_error ⟨4, "Armature", false, "GLTF", false⟩ (fun _ => [])
    (fun _ => "") idMat 0 0 [] (fun _ => false) (by decide) rfl).1

/-- C8: every frame element written by `output_frame` carries
`time = (frame - range_start) / 25.0` (line 407) — a fixed 25 fps
normalization with no dependence on the host scene's frame rate (which is not
even an input of the computation) — and therefore the first frame of every
animation block, being `range_start` itself, has time 0. -/
theorem claim8_frame_times (opts : ExportOptions)
    (sceneAt : Int → List SceneObject) (payload : Int → String)
    (global_matrix : Mat4) (animation_name : String)
    (frame_start frame_end : Int) :
    ((output_one_animation opts sceneAt payload global_matrix animation_name
        frame_start frame_end).frames.map FrameElem.time =
      (sample frame_start frame_end opts.frame_skip).map
        (fun f : Int => ((f : ℚ) - (frame_start : ℚ)) / 25)) ∧
    (frame_start ≤ frame_end →
      ((output_one_animation opts sceneAt payload global_matrix animation_name
        frame_start frame_end).frames.map FrameElem.time).head? = some 0) := by
  have hmap : (output_one_animation opts sceneAt payload global_matrix
      animation_name frame_start frame_end).frames.map FrameElem.time =
      (sample frame_start frame_end opts.frame_skip).map
        (fun f : Int => ((f : ℚ) - (frame_start : ℚ)) / 25) := by
    rw [output_one_animation]
    rw [List.map_map]
    rfl
  refine ⟨hmap, fun h => ?_⟩
  rw [hmap, List.head?_map, sample_head frame_start frame_end opts.frame_skip h]
  simp

/-- C8, witness: the theorem applied at `frame_start = 0`, `frame_end = 10`
with default options. -/
theorem claim8_witness :
    ((output_one_animation optsDefault (fun _ => []) (fun _ => "") idMat
      "animation" 0 10).frames.map FrameElem.time).head? = some 0 :=
  (claim8_frame_times optsDefault (fun _ => []) (fun _ => "") idMat
    "animation" 0 10).2 (by decide)

/-- C10: for every non-empty animation name, `output_one_animation` builds
its opening tag by direct string concatenation
`'\t<animation name="' + name + '">'` (line 430) with no XML escaping, so the
name appears verbatim (as an exact substring) in the output, whatever
characters it contains. -/
theorem claim10_open_tag_verbatim (opts : ExportOptions)
    (sceneAt : Int → List SceneObject) (payload : Int → String)
    (global_matrix : Mat4) (animation_name : String)
    (frame_start frame_end : Int) (h : animation_name ≠ "") :
    (output_one_animation opts sceneAt payload global_matrix animation_name
        frame_start frame_end).openTag =
      "\t<animation name=\"" ++ animation_name ++ "\">\n" ∧
    ∃ p q, (output_one_animation opts sceneAt payload global_matrix
        animation_name frame_start frame_end).openTag =
      p ++ animation_name ++ q := by
  have hopen : (output_one_animation opts sceneAt payload global_matrix
      animation_name frame_start frame_end).openTag =
      "\t<animation name=\"" ++ animation_name ++ "\">\n" := by
    rw [output_one_animation]
    simp [h]
  exact ⟨hopen, "\t<animation name=\"", "\">\n", hopen⟩

/-- C10, witness: a name containing a double quote and an angle bracket is
embedded verbatim. -/
theorem claim10_witness :
    (output_one_animation optsDefault (fun _ => []) (fun _ => "") idMat
        "a\"<b" 0 10).openTag = "\t<animation name=\"" ++ "a\"<b" ++ "\">\n" :=
  (claim10_open_tag_verbatim optsDefault (fun _ => []) (fun _ => "") idMat
    "a\"<b" 0 10 (by decide)).1

end CastleAnimFrames
